import Mathlib

/-!
Verification of the Vitess Online DDL Executor (vttablet onlineddl executor)
against its natural-language specification.

The Go source is shallowly embedded: pure helper functions become Lean
functions; the durable metadata store (the `schema_migrations` table) is a
`List OnlineDDL`; each executor operation is a pure function from the store
(plus the relevant executor flags) to a new store and a result-or-error.
Go `time.Duration` is embedded as `Int` nanoseconds. SQL templates that are
declared outside the provided source are modelled from the spec and marked
as such in their doc comments.
-/

namespace VitessOnlineDDL

/- Go time.Duration values are embedded as Int, in nanoseconds. -/

def millisecond : Int := 1000000
def second : Int := 1000000000
def minute : Int := 60 * second

/-- From executor.go: `defaultCutOverThreshold = 10 * time.Second`. -/
def defaultCutOverThreshold : Int := 10 * second
/-- From executor.go: `minCutOverThreshold = 5 * time.Second`. -/
def minCutOverThreshold : Int := 5 * second
/-- From executor.go: `maxCutOverThreshold = 30 * time.Second`. -/
def maxCutOverThreshold : Int := 30 * second

/-- From executor.go: `cutoverIntervals = []time.Duration{0, 1m, 5m, 10m, 30m}`. -/
def cutoverIntervals : List Int :=
  [0, 1 * minute, 5 * minute, 10 * minute, 30 * minute]

/-- Embedding of `shouldCutOverAccordingToBackoff` (executor.go).
The Go `cutoverAttempts` column is a non-negative counter; it is embedded as
`Nat`. `cutoverIntervals[cutoverAttempts]` is taken when the index is in
range, otherwise the last element (the Go code initializes the desired
interval to the last element and overwrites it when the index is in range). -/
def shouldCutOverAccordingToBackoff
    (shouldForceCutOverIndicator : Bool)
    (forceCutOverAfter sinceReadyToComplete sinceLastCutoverAttempt : Int)
    (cutoverAttempts : Nat) : Bool × Bool :=
  if shouldForceCutOverIndicator then (true, true)
  else if 0 < forceCutOverAfter ∧ forceCutOverAfter < sinceReadyToComplete then (true, true)
  else if 0 < forceCutOverAfter ∧ forceCutOverAfter ≤ millisecond then (true, true)
  else if (if cutoverAttempts < cutoverIntervals.length
           then cutoverIntervals.getD cutoverAttempts 0
           else cutoverIntervals.getLastD 0) ≤ sinceLastCutoverAttempt then (true, false)
  else (false, false)

/-- The backoff decision as the claim C1 words it: the override to
immediate-and-force-KILL fires when `force_cutover=true`, or when
`since_ready_to_complete ≥ force_cut_over_after > 0`, or when
`force_cut_over_after ≤ 1ms`; otherwise attempt exactly when
`since_last_attempt ≥ desired`, the desired wait being the
`cutover_attempts`-indexed element of the intervals, clamped. -/
def shouldCutOverAccordingToBackoffClaimed
    (shouldForceCutOverIndicator : Bool)
    (forceCutOverAfter sinceReadyToComplete sinceLastCutoverAttempt : Int)
    (cutoverAttempts : Nat) : Bool × Bool :=
  if shouldForceCutOverIndicator
      ∨ (sinceReadyToComplete ≥ forceCutOverAfter ∧ 0 < forceCutOverAfter)
      ∨ forceCutOverAfter ≤ millisecond
  then (true, true)
  else if sinceLastCutoverAttempt ≥ cutoverIntervals.getD cutoverAttempts (cutoverIntervals.getLastD 0)
  then (true, false)
  else (false, false)

/-- The backoff decision as amended: the override needs
`since_ready_to_complete` strictly greater than `force_cut_over_after`, and
the 1ms clause additionally needs `force_cut_over_after > 0`. -/
def shouldCutOverAccordingToBackoffAmended
    (shouldForceCutOverIndicator : Bool)
    (forceCutOverAfter sinceReadyToComplete sinceLastCutoverAttempt : Int)
    (cutoverAttempts : Nat) : Bool × Bool :=
  if shouldForceCutOverIndicator
      ∨ (0 < forceCutOverAfter
          ∧ (forceCutOverAfter < sinceReadyToComplete ∨ forceCutOverAfter ≤ millisecond))
  then (true, true)
  else if sinceLastCutoverAttempt ≥ cutoverIntervals.getD cutoverAttempts (cutoverIntervals.getLastD 0)
  then (true, false)
  else (false, false)

/-- Embedding of `safeMigrationCutOverThreshold` (executor.go). The Go
function returns a pair (threshold, error); errors carry the vtrpc code
FAILED_PRECONDITION. Here the error is reduced to an optional code. -/
inductive VtErr
  | failedPrecondition
  | invalidArgument
  | unavailable
  | unknown
  | migrationNotFound
deriving DecidableEq

def safeMigrationCutOverThreshold (threshold : Int) : Int × Option VtErr :=
  if threshold = 0 then (defaultCutOverThreshold, none)
  else if threshold < minCutOverThreshold then (defaultCutOverThreshold, some VtErr.failedPrecondition)
  else if threshold > maxCutOverThreshold then (defaultCutOverThreshold, some VtErr.failedPrecondition)
  else (threshold, none)

/-- The `migration_status` column: schema.OnlineDDLStatus. -/
inductive MigrationStatus
  | queued
  | ready
  | running
  | complete
  | failed
  | cancelled
deriving DecidableEq

/-- Terminal statuses: complete, failed, cancelled. -/
def MigrationStatus.isTerminal : MigrationStatus → Bool
  | .complete => true
  | .failed => true
  | .cancelled => true
  | _ => false

/-- Pending (non-terminal) statuses: queued, ready, running. -/
def MigrationStatus.isPending (s : MigrationStatus) : Bool :=
  !s.isTerminal

/-- The subset of sqlparser.DDLAction values the executor dispatches on.
The Go zero value of the enum is CreateDDLAction; `create` plays that role
here (what matters below is only that the zero value is not `alter`). -/
inductive DDLAction
  | create
  | alter
  | drop
  | revert
deriving DecidableEq

/-- schema.DDLStrategy values relevant to the executor. -/
inductive DDLStrategy
  | direct
  | online
  | vitess
  | mysql
deriving DecidableEq

/-- Result of a metadata-store mutation (sqltypes.Result reduced to its
RowsAffected, the only part the executor's callers observe). -/
structure SqlResult where
  rowsAffected : Nat
deriving DecidableEq

/-- From executor.go: `var emptyResult = &sqltypes.Result{}`. -/
def emptyResult : SqlResult := ⟨0⟩

instance {ε α : Type} [DecidableEq ε] [DecidableEq α] : DecidableEq (Except ε α) := fun a b =>
  match a, b with
  | Except.error e1, Except.error e2 =>
      if h : e1 = e2 then Decidable.isTrue (h ▸ rfl)
      else Decidable.isFalse (fun hc => h (Except.error.inj hc))
  | Except.error _, Except.ok _ => Decidable.isFalse (fun hc => Except.noConfusion hc)
  | Except.ok _, Except.error _ => Decidable.isFalse (fun hc => Except.noConfusion hc)
  | Except.ok a1, Except.ok a2 =>
      if h : a1 = a2 then Decidable.isTrue (h ▸ rfl)
      else Decidable.isFalse (fun hc => h (Except.ok.inj hc))

/-- One migration: the schema.OnlineDDL value together with the columns of
its `schema_migrations` row that the embedded operations read or write.
Boolean strategy settings (`--allow-concurrent`, `--singleton`, ...) are the
parsed flags of the strategy options; `action` is the DDL action parsed from
the migration statement (`GetAction`, assumed to parse); `cancelledTimestamp`
is whether the `cancelled_timestamp` column is non-NULL. -/
structure OnlineDDL where
  uuid : String
  table : String
  migrationContext : String
  status : MigrationStatus
  action : DDLAction
  strategy : DDLStrategy
  allowConcurrent : Bool
  singleton : Bool
  singletonContext : Bool
  singletonTable : Bool
  inOrderCompletion : Bool
  postponeLaunch : Bool
  postponeCompletion : Bool
  isImmediateOperation : Bool
  readyToComplete : Bool
  wasReadyToComplete : Bool
  forceCutOver : Bool
  cancelledTimestamp : Bool
  retries : Nat
  retainArtifactsSeconds : Int
  strategyCutOverThreshold : Int
  cutoverThresholdSeconds : Int
  message : String
deriving DecidableEq

/-- Embedding of `allowConcurrentMigration` (executor.go). When the
migration does not declare `--allow-concurrent` the function returns before
parsing the action, leaving the returned action at the Go zero value of
sqlparser.DDLAction (CreateDDLAction). -/
def allowConcurrentMigration (onlineDDL : OnlineDDL) : DDLAction × Bool :=
  if onlineDDL.allowConcurrent = false then (DDLAction.create, false)
  else
    match onlineDDL.action with
    | DDLAction.create => (onlineDDL.action, true)
    | DDLAction.drop => (onlineDDL.action, true)
    | DDLAction.alter =>
        (onlineDDL.action,
          decide (onlineDDL.strategy = DDLStrategy.online ∨ onlineDDL.strategy = DDLStrategy.vitess))
    | DDLAction.revert => (onlineDDL.action, true)

/-- Embedding of `proposedMigrationConflictsWithRunningMigration`
(executor.go). `WasReadyToComplete` is the atomic int64 read as a flag. -/
def proposedMigrationConflictsWithRunningMigration
    (runningMigration proposedMigration : OnlineDDL) : Bool :=
  if runningMigration.table = proposedMigration.table then true
  else
    let runningConcurrent := allowConcurrentMigration runningMigration
    let proposedConcurrent := allowConcurrentMigration proposedMigration
    if runningConcurrent.2 = false ∧ proposedConcurrent.2 = false then true
    else if proposedConcurrent.1 = DDLAction.alter
        ∧ runningMigration.wasReadyToComplete = false then true
    else false

/-- Embedding of `isAnyConflictingMigrationRunning` (executor.go): ranges
over the owned running migrations looking for a conflict. -/
def isAnyConflictingMigrationRunning
    (ownedRunningMigrations : List OnlineDDL) (onlineDDL : OnlineDDL) : Bool :=
  ownedRunningMigrations.any
    (fun runningMigration =>
      proposedMigrationConflictsWithRunningMigration runningMigration onlineDDL)

/-- Embedding of `getNonConflictingMigration` (executor.go): walk the
`ready` rows in order; skip a row that conflicts with a running migration,
stop with no result once the concurrency cap is reached, skip an immediate
in-order row that is not at the head of the pending-UUID list, and skip an
in-order row with a prior failed/cancelled migration in its context (that
row is additionally failed by the Go code; the failing does not change which
migration is returned and is not modelled here). `priorFailedInContext`
stands for `readFailedCancelledMigrationsInContextBeforeMigration` returning
a non-empty list. -/
def getNonConflictingMigration
    (ownedRunningMigrations : List OnlineDDL) (maxConcurrent : Nat)
    (pendingMigrationsUUIDs : List String)
    (priorFailedInContext : OnlineDDL → Bool) :
    List OnlineDDL → Option OnlineDDL
  | [] => none
  | onlineDDL :: rest =>
    if isAnyConflictingMigrationRunning ownedRunningMigrations onlineDDL then
      getNonConflictingMigration ownedRunningMigrations maxConcurrent
        pendingMigrationsUUIDs priorFailedInContext rest
    else if ownedRunningMigrations.length ≥ maxConcurrent then none
    else if onlineDDL.isImmediateOperation = true ∧ onlineDDL.inOrderCompletion = true
        ∧ pendingMigrationsUUIDs ≠ []
        ∧ pendingMigrationsUUIDs.head? ≠ some onlineDDL.uuid then
      getNonConflictingMigration ownedRunningMigrations maxConcurrent
        pendingMigrationsUUIDs priorFailedInContext rest
    else if onlineDDL.inOrderCompletion = true ∧ priorFailedInContext onlineDDL = true then
      getNonConflictingMigration ownedRunningMigrations maxConcurrent
        pendingMigrationsUUIDs priorFailedInContext rest
    else some onlineDDL

/-- The metadata store: the rows of the `schema_migrations` table. -/
abbrev Store := List OnlineDDL

/-- Modelled from the spec: the SQL template `sqlSelectPendingMigrations`
(declared outside the provided source) selects the rows whose status is
pending, i.e. non-terminal (queued, ready, running). -/
def pendingMigrations (store : Store) : Store :=
  store.filter (fun m => m.status.isPending)

/-- Modelled from the spec: the SQL template `sqlSelectReadyMigrations`
(declared outside the provided source) selects the rows in `ready` status. -/
def readyMigrations (store : Store) : Store :=
  store.filter (fun m => decide (m.status = MigrationStatus.ready))

/-- Look up a migration row by UUID (`readMigration`'s row lookup). -/
def findMigration (store : Store) (uuid : String) : Option OnlineDDL :=
  store.find? (fun m => decide (m.uuid = uuid))

/-- Embedding of
`submittedMigrationConflictsWithPendingMigrationInSingletonContext`
(executor.go). `GetRevertUUID` succeeds exactly when the pending migration
is a REVERT statement, embedded as its action being `revert`. -/
def submittedMigrationConflictsWithPendingMigrationInSingletonContext
    (submittedMigration pendingOnlineDDL : OnlineDDL) : Bool :=
  if pendingOnlineDDL.migrationContext = submittedMigration.migrationContext then false
  else if pendingOnlineDDL.action ≠ DDLAction.revert then true
  else if pendingOnlineDDL.singletonContext = false then false
  else true

/-- The singleton/singleton-context/singleton-table conflict check performed
inside `submitCallbackIfNonConflicting` (executor.go): `none` means the
submission may proceed; `some err` is the rejection. The Go switch tries
`IsSingleton` first, then `IsSingletonContext`, then `IsSingletonTable`. -/
def singletonGateConflict (store : Store) (onlineDDL : OnlineDDL) : Option VtErr :=
  if onlineDDL.singleton = false ∧ onlineDDL.singletonContext = false
      ∧ onlineDDL.singletonTable = false then
    none
  else
    let rows := pendingMigrations store
    if onlineDDL.singleton then
      if rows.isEmpty then none else some VtErr.failedPrecondition
    else if onlineDDL.singletonContext then
      if rows.any (fun pendingOnlineDDL =>
          submittedMigrationConflictsWithPendingMigrationInSingletonContext
            onlineDDL pendingOnlineDDL)
      then some VtErr.failedPrecondition else none
    else
      if rows.any (fun pendingRow => decide (pendingRow.table = onlineDDL.table))
      then some VtErr.failedPrecondition else none

/-- Embedding of `submitCallbackIfNonConflicting` (executor.go): run the
callback only when the singleton gate finds no conflict; on conflict return
the error with the store untouched. -/
def submitCallbackIfNonConflicting (store : Store) (onlineDDL : OnlineDDL)
    (callback : Store → Store × Except VtErr SqlResult) :
    Store × Except VtErr SqlResult :=
  match singletonGateConflict store onlineDDL with
  | some err => (store, Except.error err)
  | none => callback store

/-- Modelled from the spec: the SQL template `sqlRetryMigration` (declared
outside the provided source) re-queues a row only when its status is
terminal failed/cancelled — "retry (terminal→queued)" — bumping `retries`. -/
def retrySQLRow (uuid : String) (m : OnlineDDL) : OnlineDDL :=
  if m.uuid = uuid ∧ (m.status = MigrationStatus.failed ∨ m.status = MigrationStatus.cancelled)
  then { m with status := MigrationStatus.queued, retries := m.retries + 1 }
  else m

/-- Embedding of `RetryMigration` (executor.go). `isOpen` is the executor's
open flag (its gate rejects with FAILED_PRECONDITION / ErrOnlineDDLDisabled);
`uuidValid` stands for the external `schema.IsOnlineDDLUUID` check. -/
def RetryMigration (isOpen uuidValid : Bool) (store : Store) (uuid : String) :
    Store × Except VtErr SqlResult :=
  if isOpen = false then (store, Except.error VtErr.failedPrecondition)
  else if uuidValid = false then (store, Except.error VtErr.unknown)
  else
    (store.map (retrySQLRow uuid),
      Except.ok ⟨store.countP (fun m =>
        decide (m.uuid = uuid
          ∧ (m.status = MigrationStatus.failed ∨ m.status = MigrationStatus.cancelled)))⟩)

/-- The row inserted by `SubmitMigration`'s `sqlInsertMigration` for a new
UUID: status `queued`, the validated cut-over threshold stored in whole
seconds (`int64(cutoverThreshold.Seconds())`), counters and review flags at
their initial values. -/
def insertedMigrationRow (onlineDDL : OnlineDDL) (cutoverThreshold : Int) : OnlineDDL :=
  { onlineDDL with
      status := MigrationStatus.queued
      cutoverThresholdSeconds := cutoverThreshold / second
      isImmediateOperation := false
      readyToComplete := false
      wasReadyToComplete := false
      cancelledTimestamp := false
      retries := 0
      message := "" }

/-- Embedding of `SubmitMigration` (executor.go): reject when closed; when a
row with the same UUID exists, require an identical migration context and
then go through the singleton gate with `RetryMigration` as the callback;
when the UUID is new, validate the strategy's cut-over threshold and go
through the singleton gate with the row insertion as the callback. -/
def SubmitMigration (isOpen : Bool) (store : Store) (onlineDDL : OnlineDDL) :
    Store × Except VtErr SqlResult :=
  if isOpen = false then (store, Except.error VtErr.failedPrecondition)
  else
    match findMigration store onlineDDL.uuid with
    | some storedMigration =>
        if storedMigration.migrationContext ≠ onlineDDL.migrationContext then
          (store, Except.error VtErr.failedPrecondition)
        else
          submitCallbackIfNonConflicting store onlineDDL
            (fun s => RetryMigration true true s onlineDDL.uuid)
    | none =>
        match (safeMigrationCutOverThreshold onlineDDL.strategyCutOverThreshold).2 with
        | some err => (store, Except.error err)
        | none =>
            submitCallbackIfNonConflicting store onlineDDL
              (fun s => (s ++ [insertedMigrationRow onlineDDL
                  (safeMigrationCutOverThreshold onlineDDL.strategyCutOverThreshold).1],
                Except.ok ⟨1⟩))

/-- The `updateMigrationTimestamp "cancelled_timestamp"` write performed by
`CancelMigration` when the cancel is user-issued. -/
def setCancelledTimestampRow (uuid : String) (m : OnlineDDL) : OnlineDDL :=
  if m.uuid = uuid then { m with cancelledTimestamp := true } else m

/-- Modelled from the spec: the SQL template
`sqlUpdateMigrationStatusFailedOrCancelled` (declared outside the provided
source) sets the status to `cancelled` when `cancelled_timestamp` is set and
to `failed` otherwise. -/
def failOrCancelRow (uuid message : String) (m : OnlineDDL) : OnlineDDL :=
  if m.uuid = uuid then
    { m with
        status := if m.cancelledTimestamp then MigrationStatus.cancelled
                  else MigrationStatus.failed
        message := message }
  else m

/-- Embedding of `failMigration` (executor.go): mark the row failed or
cancelled and write the message (ownership-set removal is not part of the
store). -/
def failMigration (store : Store) (uuid message : String) : Store :=
  store.map (failOrCancelRow uuid message)

/-- Embedding of `CancelMigration` (executor.go). A terminal row is left
untouched and the empty result returned. Otherwise `cancelled_timestamp` is
stamped when user-issued, the result is computed (RowsAffected 1 for
queued/ready; for running rows 1 exactly when the replication stream was
found running, here the parameter `foundRunning`), and the deferred
`failMigration` then marks the row failed/cancelled. -/
def CancelMigration (isOpen : Bool) (store : Store) (uuid message : String)
    (issuedByUser foundRunning : Bool) : Store × Except VtErr SqlResult :=
  if isOpen = false then (store, Except.error VtErr.failedPrecondition)
  else
    match findMigration store uuid with
    | none => (store, Except.error VtErr.migrationNotFound)
    | some onlineDDL =>
        if onlineDDL.status.isTerminal then (store, Except.ok emptyResult)
        else
          (failMigration
            (if issuedByUser then store.map (setCancelledTimestampRow uuid) else store)
            uuid message,
           Except.ok
            (if onlineDDL.status = MigrationStatus.queued
                ∨ onlineDDL.status = MigrationStatus.ready then ⟨1⟩
             else if foundRunning then ⟨1⟩ else ⟨0⟩))

/-- Embedding of the loop body of `scheduleNextMigration` (executor.go) over
the queued rows, carried out over the whole store: non-queued rows are not
selected by `sqlSelectQueuedMigrations` and stay untouched; a queued row with
`postpone_launch` is skipped; an immediate-operation row not yet flagged gets
`ready_to_complete` set; unless the row is an immediate operation with
`postpone_completion`, the first such row (sync.Once) is promoted to
`ready`. -/
def scheduleFlagRow (row : OnlineDDL) : OnlineDDL :=
  if row.readyToComplete = false ∧ row.isImmediateOperation = true
  then { row with readyToComplete := true } else row

def scheduleRows : Store → Bool → Store
  | [], _ => []
  | row :: rest, scheduledAlready =>
    if row.status ≠ MigrationStatus.queued then
      row :: scheduleRows rest scheduledAlready
    else if row.postponeLaunch then
      row :: scheduleRows rest scheduledAlready
    else if (row.isImmediateOperation = true ∧ row.postponeCompletion = true)
        ∨ scheduledAlready = true then
      scheduleFlagRow row :: scheduleRows rest scheduledAlready
    else
      { scheduleFlagRow row with status := MigrationStatus.ready } :: scheduleRows rest true

/-- Embedding of `scheduleNextMigration` (executor.go). -/
def scheduleNextMigration (store : Store) : Store :=
  scheduleRows store false

/-- Embedding of `CleanupMigration` (executor.go). Modelled from the spec:
the SQL template `sqlUpdateReadyForCleanup` (declared outside the provided
source) sets `retain_artifacts_seconds` to a small negative value so the
next GC pass reclaims the artifacts; the store effect is reduced to a map
over the matching row. -/
def CleanupMigration (isOpen uuidValid : Bool) (store : Store) (uuid : String) :
    Store × Except VtErr SqlResult :=
  if isOpen = false then (store, Except.error VtErr.failedPrecondition)
  else if uuidValid = false then (store, Except.error VtErr.unknown)
  else
    (store.map (fun m => if m.uuid = uuid then { m with retainArtifactsSeconds := -1 } else m),
      Except.ok ⟨(store.countP (fun m => decide (m.uuid = uuid)))⟩)

/-- Embedding of `ForceCutOverMigration` (executor.go). Modelled from the
spec: the SQL template `sqlUpdateForceCutOver` (declared outside the
provided source) sets the sticky `force_cutover` flag of the row. -/
def ForceCutOverMigration (isOpen uuidValid : Bool) (store : Store) (uuid : String) :
    Store × Except VtErr SqlResult :=
  if isOpen = false then (store, Except.error VtErr.failedPrecondition)
  else if uuidValid = false then (store, Except.error VtErr.unknown)
  else
    (store.map (fun m => if m.uuid = uuid then { m with forceCutOver := true } else m),
      Except.ok ⟨(store.countP (fun m => decide (m.uuid = uuid)))⟩)

/-- Embedding of `SetMigrationCutOverThreshold` (executor.go). `parsedOK`
stands for `time.ParseDuration` succeeding on the threshold string (its
failure is INVALID_ARGUMENT); the parsed duration is then validated with
`safeMigrationCutOverThreshold` and stored in whole seconds. -/
def SetMigrationCutOverThreshold (isOpen uuidValid parsedOK : Bool)
    (store : Store) (uuid : String) (threshold : Int) :
    Store × Except VtErr SqlResult :=
  if isOpen = false then (store, Except.error VtErr.failedPrecondition)
  else if uuidValid = false then (store, Except.error VtErr.unknown)
  else if parsedOK = false then (store, Except.error VtErr.invalidArgument)
  else
    match (safeMigrationCutOverThreshold threshold).2 with
    | some err => (store, Except.error err)
    | none =>
        (store.map (fun m =>
            if m.uuid = uuid then
              { m with cutoverThresholdSeconds :=
                  (safeMigrationCutOverThreshold threshold).1 / second }
            else m),
          Except.ok ⟨(store.countP (fun m => decide (m.uuid = uuid)))⟩)

/-- Embedding of `CompleteMigration` (executor.go). `shardsMatch` stands for
`matchesShards`; when the shard does not match, an empty result is returned
with no change. Modelled from the spec: the `sqlClearPostponeCompletion`
template (declared outside the provided source) clears `postpone_completion`
for the row. -/
def CompleteMigration (isOpen uuidValid shardsMatch : Bool) (store : Store) (uuid : String) :
    Store × Except VtErr SqlResult :=
  if isOpen = false then (store, Except.error VtErr.failedPrecondition)
  else if uuidValid = false then (store, Except.error VtErr.unknown)
  else if shardsMatch = false then (store, Except.ok emptyResult)
  else
    (store.map (fun m => if m.uuid = uuid then { m with postponeCompletion := false } else m),
      Except.ok ⟨(store.countP (fun m => decide (m.uuid = uuid)))⟩)

/-- Embedding of `LaunchMigration` (executor.go). Modelled from the spec:
the `sqlUpdateLaunchMigration` template (declared outside the provided
source) clears `postpone_launch` for the row. -/
def LaunchMigration (isOpen uuidValid shardsMatch : Bool) (store : Store) (uuid : String) :
    Store × Except VtErr SqlResult :=
  if isOpen = false then (store, Except.error VtErr.failedPrecondition)
  else if uuidValid = false then (store, Except.error VtErr.unknown)
  else if shardsMatch = false then (store, Except.ok emptyResult)
  else
    (store.map (fun m => if m.uuid = uuid then { m with postponeLaunch := false } else m),
      Except.ok ⟨(store.countP (fun m => decide (m.uuid = uuid)))⟩)

/-- The executor's cross-tick flags relevant to the runner startup guard:
`isOpen` and `reviewedRunningMigrationsFlag` (executor.go). -/
structure ExecutorFlags where
  isOpen : Bool
  reviewedRunningMigrationsFlag : Bool
deriving DecidableEq

/-- Embedding of `Open` (executor.go): a no-op when already open or when
online DDL is disabled by config; otherwise clears
`reviewedRunningMigrationsFlag` (it will be set by
`reviewRunningMigrations`) and opens the executor. -/
def openExecutor (enableOnlineDDL : Bool) (flags : ExecutorFlags) : ExecutorFlags :=
  if flags.isOpen = true ∨ enableOnlineDDL = false then flags
  else { isOpen := true, reviewedRunningMigrationsFlag := false }

/-- The flag effect of `reviewRunningMigrations` (executor.go): it returns
immediately when the executor is not open, and sets
`reviewedRunningMigrationsFlag` only on reaching its end without error
(`succeeds`). -/
def reviewRunningMigrationsFlags (succeeds : Bool) (flags : ExecutorFlags) : ExecutorFlags :=
  if flags.isOpen = false then flags
  else if succeeds then { flags with reviewedRunningMigrationsFlag := true }
  else flags

/-- Embedding of `runNextMigration` (executor.go): when
`reviewedRunningMigrationsFlag` has not been set since `Open`, return
immediately — before reading the ready rows ("nothing read") and without
dispatching. Otherwise pick a non-conflicting ready migration and dispatch
it to `executeMigration` (whose store effect is abstracted as the function
parameter `executeMigration`; the theorem below holds for every such
function). Returns the new store and the dispatched migration, if any. -/
def runNextMigration (flags : ExecutorFlags) (store : Store)
    (ownedRunningMigrations : List OnlineDDL) (maxConcurrent : Nat)
    (pendingMigrationsUUIDs : List String)
    (priorFailedInContext : OnlineDDL → Bool)
    (executeMigration : Store → OnlineDDL → Store) :
    Store × Option OnlineDDL :=
  if flags.reviewedRunningMigrationsFlag = false then (store, none)
  else
    match getNonConflictingMigration ownedRunningMigrations maxConcurrent
        pendingMigrationsUUIDs priorFailedInContext (readyMigrations store) with
    | none => (store, none)
    | some onlineDDL => (executeMigration store onlineDDL, some onlineDDL)

/-- Events of the tick loop relevant to the startup guard: a run of
`reviewRunningMigrations` (succeeding or not) and a run of
`runNextMigration`. -/
inductive TickEvent
  | review (succeeds : Bool)
  | runNext
deriving DecidableEq

/-- State threaded through tick events: the flags, the store, and the list
of migrations dispatched so far. -/
structure TickState where
  flags : ExecutorFlags
  store : Store
  dispatched : List OnlineDDL

/-- One tick event applied to the state. -/
def tickStep (ownedRunningMigrations : List OnlineDDL) (maxConcurrent : Nat)
    (pendingMigrationsUUIDs : List String)
    (priorFailedInContext : OnlineDDL → Bool)
    (executeMigration : Store → OnlineDDL → Store) :
    TickState → TickEvent → TickState
  | s, TickEvent.review ok =>
      { s with flags := reviewRunningMigrationsFlags ok s.flags }
  | s, TickEvent.runNext =>
      { s with
          store := (runNextMigration s.flags s.store ownedRunningMigrations maxConcurrent
            pendingMigrationsUUIDs priorFailedInContext executeMigration).1
          dispatched := s.dispatched
            ++ (runNextMigration s.flags s.store ownedRunningMigrations maxConcurrent
              pendingMigrationsUUIDs priorFailedInContext executeMigration).2.toList }

/-- A sequence of tick events applied in order. -/
def tickRun (ownedRunningMigrations : List OnlineDDL) (maxConcurrent : Nat)
    (pendingMigrationsUUIDs : List String)
    (priorFailedInContext : OnlineDDL → Bool)
    (executeMigration : Store → OnlineDDL → Store)
    (s : TickState) (events : List TickEvent) : TickState :=
  events.foldl
    (tickStep ownedRunningMigrations maxConcurrent pendingMigrationsUUIDs
      priorFailedInContext executeMigration) s

/-- The conflict predicate as claim C2 words it: same table, or neither
migration allowed to run concurrently, or the candidate's DDL action is
alter while the running migration has `was_ready_to_complete=false`. -/
def conflictsClaimed (runningMigration proposedMigration : OnlineDDL) : Bool :=
  decide (runningMigration.table = proposedMigration.table)
  || (!(allowConcurrentMigration runningMigration).2
      && !(allowConcurrentMigration proposedMigration).2)
  || (decide (proposedMigration.action = DDLAction.alter)
      && !runningMigration.wasReadyToComplete)

/-- The conflict predicate as amended: the alter clause fires only when the
candidate declares `--allow-concurrent` (otherwise its action is never
parsed by `allowConcurrentMigration` and stays at the zero value). -/
def conflictsAmended (runningMigration proposedMigration : OnlineDDL) : Bool :=
  decide (runningMigration.table = proposedMigration.table)
  || (!(allowConcurrentMigration runningMigration).2
      && !(allowConcurrentMigration proposedMigration).2)
  || (proposedMigration.allowConcurrent
      && decide (proposedMigration.action = DDLAction.alter)
      && !runningMigration.wasReadyToComplete)

/-- The legal status transitions as claim C9 words them: queued→ready,
ready→running, running→terminal, and retry taking failed/cancelled back to
queued. -/
def claimedLegalTransition : MigrationStatus → MigrationStatus → Bool
  | MigrationStatus.queued, MigrationStatus.ready => true
  | MigrationStatus.ready, MigrationStatus.running => true
  | MigrationStatus.running, MigrationStatus.complete => true
  | MigrationStatus.running, MigrationStatus.failed => true
  | MigrationStatus.running, MigrationStatus.cancelled => true
  | MigrationStatus.failed, MigrationStatus.queued => true
  | MigrationStatus.cancelled, MigrationStatus.queued => true
  | _, _ => false

/-- The legal transitions as amended: additionally a cancellation or failure
may take a not-yet-running (queued or ready) migration directly to
failed/cancelled. -/
def amendedLegalTransition : MigrationStatus → MigrationStatus → Bool
  | MigrationStatus.queued, MigrationStatus.ready => true
  | MigrationStatus.ready, MigrationStatus.running => true
  | MigrationStatus.running, MigrationStatus.complete => true
  | MigrationStatus.running, MigrationStatus.failed => true
  | MigrationStatus.running, MigrationStatus.cancelled => true
  | MigrationStatus.queued, MigrationStatus.failed => true
  | MigrationStatus.queued, MigrationStatus.cancelled => true
  | MigrationStatus.ready, MigrationStatus.failed => true
  | MigrationStatus.ready, MigrationStatus.cancelled => true
  | MigrationStatus.failed, MigrationStatus.queued => true
  | MigrationStatus.cancelled, MigrationStatus.queued => true
  | _, _ => false

/-- Rowwise contract of one scheduler pass (claim C8): UUID preserved;
non-queued and postponed-launch rows untouched; a non-postponed queued
immediate-operation row ends with `ready_to_complete=true`; a status change
is exactly a promotion queued→ready of a non-postponed row that is not an
immediate operation with postponed completion. -/
def schedulerRowOK (a b : OnlineDDL) : Prop :=
  b.uuid = a.uuid
  ∧ (a.status ≠ MigrationStatus.queued → b = a)
  ∧ (a.postponeLaunch = true → b = a)
  ∧ (a.status = MigrationStatus.queued → a.postponeLaunch = false →
      a.isImmediateOperation = true → b.readyToComplete = true)
  ∧ (b.status ≠ a.status →
      a.status = MigrationStatus.queued ∧ b.status = MigrationStatus.ready
        ∧ ¬(a.isImmediateOperation = true ∧ a.postponeCompletion = true)
        ∧ a.postponeLaunch = false)

/-- Number of rows carrying a given UUID. -/
def countUUID (store : Store) (uuid : String) : Nat :=
  store.countP (fun m => decide (m.uuid = uuid))

/-- A plain migration used to build concrete witnesses: a non-concurrent
CREATE with no strategy flags. -/
def sampleMigration : OnlineDDL :=
  { uuid := "aaaa"
    table := "t1"
    migrationContext := "ctx"
    status := MigrationStatus.queued
    action := DDLAction.create
    strategy := DDLStrategy.vitess
    allowConcurrent := false
    singleton := false
    singletonContext := false
    singletonTable := false
    inOrderCompletion := false
    postponeLaunch := false
    postponeCompletion := false
    isImmediateOperation := false
    readyToComplete := false
    wasReadyToComplete := false
    forceCutOver := false
    cancelledTimestamp := false
    retries := 0
    retainArtifactsSeconds := 86400
    strategyCutOverThreshold := 0
    cutoverThresholdSeconds := 10
    message := "" }

/-! ### Helper lemmas -/

/-- The Go clamping ("initialize to the last interval, overwrite when the
index is in range") agrees with `List.getD` defaulting to the last
interval. -/
theorem cutoverIntervals_desired (attempts : Nat) :
    (if attempts < cutoverIntervals.length then cutoverIntervals.getD attempts 0
     else cutoverIntervals.getLastD 0)
      = cutoverIntervals.getD attempts (cutoverIntervals.getLastD 0) := by
  match attempts with
  | 0 => rfl
  | 1 => rfl
  | 2 => rfl
  | 3 => rfl
  | 4 => rfl
  | n + 5 =>
    have h : ¬ (n + 5 < cutoverIntervals.length) := by
      simp only [cutoverIntervals, List.length]
      omega
    rw [if_neg h]
    simp [cutoverIntervals, List.getD]

/-! ### Claim C1: cut-over backoff decision -/

/-- C1 (counterexample): the claim as stated fails on the code at two
inputs. With `force_cut_over_after = since_ready_to_complete = 1s` (and one
prior cut-over attempt, no time since the last attempt) the claim demands an
immediate forced cut-over (`since_ready_to_complete ≥ force_cut_over_after >
0`) while the code — which compares strictly — backs off; and with
`force_cut_over_after = 0` the claim's clause `force_cut_over_after ≤ 1ms`
demands an immediate forced cut-over while the code requires
`force_cut_over_after > 0` before looking at the 1ms clause. -/
theorem c1_backoff_counterexample :
    shouldCutOverAccordingToBackoffClaimed false second second 0 1 = (true, true)
    ∧ shouldCutOverAccordingToBackoff false second second 0 1 = (false, false)
    ∧ shouldCutOverAccordingToBackoffClaimed false 0 0 0 1 = (true, true)
    ∧ shouldCutOverAccordingToBackoff false 0 0 0 1 = (false, false) := by
  refine ⟨?_, ?_, ?_, ?_⟩ <;> decide

/-- C1 (amended): for every input, the backoff decision equals the amended
claim: the desired wait is the `cutover_attempts`-indexed interval of
`{0, 1m, 5m, 10m, 30m}` clamped to the last element, a cut-over is attempted
exactly when `since_last_attempt ≥ desired`, and the decision is overridden
to attempt-immediately-with-force-KILL when `force_cutover=true`, or when
`force_cut_over_after > 0` and either `since_ready_to_complete >
force_cut_over_after` (strictly) or `force_cut_over_after ≤ 1ms`. -/
theorem c1_backoff_amended (force : Bool) (fcoa sr sl : Int) (attempts : Nat) :
    shouldCutOverAccordingToBackoff force fcoa sr sl attempts
      = shouldCutOverAccordingToBackoffAmended force fcoa sr sl attempts := by
  unfold shouldCutOverAccordingToBackoff shouldCutOverAccordingToBackoffAmended
  rw [cutoverIntervals_desired]
  simp only [ge_iff_le]
  split_ifs <;> first | rfl | tauto

/-! ### Claim C6: cut-over threshold validation -/

/-- C6: threshold validation — `0` yields the 10s default with no error;
a positive value below 5s or a value above 30s yields a
FAILED_PRECONDITION error; a value in `[5s, 30s]` is returned unchanged
with no error; `SetMigrationCutOverThreshold` propagates the validation
error with no store change; and `SubmitMigration` of a new UUID propagates
the validation error of the strategy's threshold with no store change. -/
theorem c6_cutover_threshold :
    safeMigrationCutOverThreshold 0 = (defaultCutOverThreshold, none)
    ∧ (∀ d : Int, 0 < d → d < minCutOverThreshold →
        (safeMigrationCutOverThreshold d).2 = some VtErr.failedPrecondition)
    ∧ (∀ d : Int, maxCutOverThreshold < d →
        (safeMigrationCutOverThreshold d).2 = some VtErr.failedPrecondition)
    ∧ (∀ d : Int, minCutOverThreshold ≤ d → d ≤ maxCutOverThreshold →
        safeMigrationCutOverThreshold d = (d, none))
    ∧ (∀ (store : Store) (uuid : String) (d : Int) (err : VtErr),
        (safeMigrationCutOverThreshold d).2 = some err →
        SetMigrationCutOverThreshold true true true store uuid d
          = (store, Except.error err))
    ∧ (∀ (store : Store) (m : OnlineDDL) (err : VtErr),
        findMigration store m.uuid = none →
        (safeMigrationCutOverThreshold m.strategyCutOverThreshold).2 = some err →
        SubmitMigration true store m = (store, Except.error err)) := by
  refine ⟨rfl, ?_, ?_, ?_, ?_, ?_⟩
  · intro d h1 h2
    unfold safeMigrationCutOverThreshold
    rw [if_neg (by unfold minCutOverThreshold second at h2; omega), if_pos h2]
  · intro d h
    unfold safeMigrationCutOverThreshold
    unfold minCutOverThreshold maxCutOverThreshold second at *
    split_ifs <;> first | rfl | omega
  · intro d h1 h2
    unfold safeMigrationCutOverThreshold
    unfold minCutOverThreshold maxCutOverThreshold second at *
    split_ifs <;> first | rfl | omega
  · intro store uuid d err h
    unfold SetMigrationCutOverThreshold
    rw [if_neg (by simp), if_neg (by simp), if_neg (by simp), h]
  · intro store m err hfind h
    unfold SubmitMigration
    rw [if_neg (by simp), hfind, h]

/-- C6 (witness): the theorem applied at the concrete thresholds 3s (below
the minimum), 45s (above the maximum) and 7s (in range). -/
theorem c6_cutover_threshold_witness :
    (safeMigrationCutOverThreshold (3 * second)).2 = some VtErr.failedPrecondition
    ∧ (safeMigrationCutOverThreshold (45 * second)).2 = some VtErr.failedPrecondition
    ∧ safeMigrationCutOverThreshold (7 * second) = (7 * second, none) :=
  ⟨c6_cutover_threshold.2.1 (3 * second) (by decide) (by decide),
   c6_cutover_threshold.2.2.1 (45 * second) (by decide),
   c6_cutover_threshold.2.2.2.1 (7 * second) (by decide) (by decide)⟩

/-! ### Claim C7: mutations while the executor is closed -/

/-- C7 (counterexample): with the executor closed, a submission is rejected
with FAILED_PRECONDITION (the gate
`vterrors.New(vtrpcpb.Code_FAILED_PRECONDITION, schema.ErrOnlineDDLDisabled)`),
not with UNAVAILABLE as the claim states. -/
theorem c7_closed_counterexample :
    (SubmitMigration false [] sampleMigration).2 = Except.error VtErr.failedPrecondition
    ∧ VtErr.failedPrecondition ≠ VtErr.unavailable := by
  exact ⟨rfl, by decide⟩

/-- C7 (amended): every mutating submission-API operation embedded here
(Submit, Cancel, Retry, Cleanup, ForceCutOver, SetCutOverThreshold,
Complete, Launch), when the executor is closed or online DDL is disabled,
returns an error whose code is FAILED_PRECONDITION (message
ErrOnlineDDLDisabled) and performs no state change. (Throttle/Unthrottle
are guarded by the external throttler's own open-check instead.) -/
theorem c7_closed_amended :
    (∀ (store : Store) (m : OnlineDDL),
      SubmitMigration false store m = (store, Except.error VtErr.failedPrecondition))
    ∧ (∀ (store : Store) (uuid msg : String) (user found : Bool),
      CancelMigration false store uuid msg user found
        = (store, Except.error VtErr.failedPrecondition))
    ∧ (∀ (uuidValid : Bool) (store : Store) (uuid : String),
      RetryMigration false uuidValid store uuid
        = (store, Except.error VtErr.failedPrecondition))
    ∧ (∀ (uuidValid : Bool) (store : Store) (uuid : String),
      CleanupMigration false uuidValid store uuid
        = (store, Except.error VtErr.failedPrecondition))
    ∧ (∀ (uuidValid : Bool) (store : Store) (uuid : String),
      ForceCutOverMigration false uuidValid store uuid
        = (store, Except.error VtErr.failedPrecondition))
    ∧ (∀ (uuidValid parsedOK : Bool) (store : Store) (uuid : String) (threshold : Int),
      SetMigrationCutOverThreshold false uuidValid parsedOK store uuid threshold
        = (store, Except.error VtErr.failedPrecondition))
    ∧ (∀ (uuidValid shardsMatch : Bool) (store : Store) (uuid : String),
      CompleteMigration false uuidValid shardsMatch store uuid
        = (store, Except.error VtErr.failedPrecondition))
    ∧ (∀ (uuidValid shardsMatch : Bool) (store : Store) (uuid : String),
      LaunchMigration false uuidValid shardsMatch store uuid
        = (store, Except.error VtErr.failedPrecondition)) := by
  refine ⟨?_, ?_, ?_, ?_, ?_, ?_, ?_, ?_⟩ <;> intros <;> rfl

/-! ### Claim C2: runner conflict predicate -/

/-- The action component returned by `allowConcurrentMigration` is the
parsed action only when the migration declares allow-concurrent; otherwise
it stays at the zero value. -/
theorem allowConcurrentMigration_fst (m : OnlineDDL) :
    (allowConcurrentMigration m).1
      = (if m.allowConcurrent then m.action else DDLAction.create) := by
  unfold allowConcurrentMigration
  cases h : m.allowConcurrent
  · simp [h]
  · cases m.action <;> simp [h]

/-- The action seen by the conflict predicate is `alter` exactly when the
migration declares allow-concurrent and parses as an alter. -/
theorem allowConcurrentMigration_fst_alter (m : OnlineDDL) :
    ((allowConcurrentMigration m).1 = DDLAction.alter)
      ↔ (m.allowConcurrent = true ∧ m.action = DDLAction.alter) := by
  rw [allowConcurrentMigration_fst]
  cases h : m.allowConcurrent <;> simp [h]

/-- C2 (counterexample): a candidate that is a plain (non-allow-concurrent)
ALTER on table `t2` against a running allow-concurrent CREATE on table `t1`
with `was_ready_to_complete=false`: the claim's predicate reports a conflict
(the candidate's DDL action is alter and the running migration is not ready
to complete) while the code reports none, because the candidate's action is
never parsed when it does not declare allow-concurrent. -/
theorem c2_conflict_counterexample :
    conflictsClaimed
        { sampleMigration with
            uuid := "r1"
            table := "t1"
            action := DDLAction.create
            allowConcurrent := true
            wasReadyToComplete := false
            status := MigrationStatus.running }
        { sampleMigration with
            uuid := "p1"
            table := "t2"
            action := DDLAction.alter
            allowConcurrent := false } = true
    ∧ proposedMigrationConflictsWithRunningMigration
        { sampleMigration with
            uuid := "r1"
            table := "t1"
            action := DDLAction.create
            allowConcurrent := true
            wasReadyToComplete := false
            status := MigrationStatus.running }
        { sampleMigration with
            uuid := "p1"
            table := "t2"
            action := DDLAction.alter
            allowConcurrent := false } = false := by
  refine ⟨?_, ?_⟩ <;> decide

/-- C2 (amended): the conflict predicate holds if and only if the two
migrations name the same table, or neither is (effectively) allow-concurrent,
or the candidate declares allow-concurrent, its action is alter, and the
running migration has `was_ready_to_complete=false`; and the runner's
selection (`getNonConflictingMigration`) only ever returns a ready migration
that conflicts with none of the owned running migrations. -/
theorem c2_conflict_amended :
    (∀ runningMigration proposedMigration : OnlineDDL,
      proposedMigrationConflictsWithRunningMigration runningMigration proposedMigration
        = conflictsAmended runningMigration proposedMigration)
    ∧ (∀ (owned : List OnlineDDL) (maxConcurrent : Nat) (pendingUUIDs : List String)
        (priorFailed : OnlineDDL → Bool) (ready : List OnlineDDL),
      (getNonConflictingMigration owned maxConcurrent pendingUUIDs priorFailed ready).all
        (fun m => !isAnyConflictingMigrationRunning owned m) = true) := by
  constructor
  · intro running proposed
    have hfst := allowConcurrentMigration_fst proposed
    unfold proposedMigrationConflictsWithRunningMigration conflictsAmended
    by_cases ht : running.table = proposed.table
    · simp [ht]
    · simp only [if_neg ht, decide_eq_false ht, Bool.false_or]
      cases hr2 : (allowConcurrentMigration running).2 <;>
        cases hp2 : (allowConcurrentMigration proposed).2 <;>
          cases hw : running.wasReadyToComplete <;>
            cases hflag : proposed.allowConcurrent <;>
              cases hact : proposed.action <;>
                simp_all
  · intro owned maxConcurrent pendingUUIDs priorFailed ready
    induction ready with
    | nil => rfl
    | cons head rest ih =>
      rw [getNonConflictingMigration]
      split_ifs with h1 h2 h3 h4
      · exact ih
      · rfl
      · exact ih
      · exact ih
      · simp [Option.all, Bool.not_eq_true] at h1 ⊢
        exact h1

/-! ### Claim C3: singleton submission gate -/

/-- The singleton-context conflict function holds exactly for a pending
migration in a different context that is not a REVERT lacking the
singleton-context flag. -/
theorem singletonContextConflict_iff (submitted pending : OnlineDDL) :
    submittedMigrationConflictsWithPendingMigrationInSingletonContext submitted pending = true
      ↔ (pending.migrationContext ≠ submitted.migrationContext
          ∧ (pending.action ≠ DDLAction.revert ∨ pending.singletonContext = true)) := by
  unfold submittedMigrationConflictsWithPendingMigrationInSingletonContext
  by_cases hc : pending.migrationContext = submitted.migrationContext
  · simp [hc]
  · by_cases ha : pending.action = DDLAction.revert
    · cases hs : pending.singletonContext <;> simp [hc, ha, hs]
    · simp [hc, ha]

/-- C3: the singleton gate — with `singleton`, the submission is rejected
exactly when a pending (non-terminal) migration exists; with
`singleton-context`, exactly when a pending migration in a different
migration context exists that is not a REVERT lacking `singleton-context`;
with `singleton-table`, exactly when a pending migration targets the same
table; and every rejected submission leaves the store unchanged, so no new
row for the submitted UUID is inserted (with the gate rejection surfacing as
the FAILED_PRECONDITION error of `SubmitMigration` whenever the UUID is new
and the threshold validation passes). -/
theorem c3_singleton_gate :
    (∀ (store : Store) (m : OnlineDDL), m.singleton = true →
      ((singletonGateConflict store m).isSome ↔ pendingMigrations store ≠ []))
    ∧ (∀ (store : Store) (m : OnlineDDL), m.singleton = false → m.singletonContext = true →
      ((singletonGateConflict store m).isSome ↔
        ∃ p ∈ pendingMigrations store,
          p.migrationContext ≠ m.migrationContext
            ∧ (p.action ≠ DDLAction.revert ∨ p.singletonContext = true)))
    ∧ (∀ (store : Store) (m : OnlineDDL),
        m.singleton = false → m.singletonContext = false → m.singletonTable = true →
      ((singletonGateConflict store m).isSome ↔
        ∃ p ∈ pendingMigrations store, p.table = m.table))
    ∧ (∀ (store : Store) (m : OnlineDDL) (err : VtErr),
        (SubmitMigration true store m).2 = Except.error err →
        (SubmitMigration true store m).1 = store)
    ∧ (∀ (store : Store) (m : OnlineDDL) (err : VtErr),
        findMigration store m.uuid = none →
        (safeMigrationCutOverThreshold m.strategyCutOverThreshold).2 = none →
        singletonGateConflict store m = some err →
        SubmitMigration true store m = (store, Except.error err)) := by
  refine ⟨?_, ?_, ?_, ?_, ?_⟩
  · intro store m hs
    unfold singletonGateConflict
    rw [if_neg (by simp [hs]), if_pos hs]
    rcases hrows : pendingMigrations store with _ | ⟨p, ps⟩ <;> simp
  · intro store m hs hsc
    unfold singletonGateConflict
    rw [if_neg (by simp [hsc]), if_neg (by simp [hs]), if_pos hsc]
    cases hany : (pendingMigrations store).any
        (fun p => submittedMigrationConflictsWithPendingMigrationInSingletonContext m p)
    · simp only [Bool.false_eq_true, if_false, Option.isSome_none, false_iff]
      rintro ⟨p, hp, hcond⟩
      have : (pendingMigrations store).any
          (fun p => submittedMigrationConflictsWithPendingMigrationInSingletonContext m p)
            = true :=
        List.any_eq_true.mpr ⟨p, hp, (singletonContextConflict_iff m p).mpr hcond⟩
      rw [hany] at this
      exact Bool.false_ne_true this
    · simp only [if_true, Option.isSome_some, true_iff]
      obtain ⟨p, hp, hcond⟩ := List.any_eq_true.mp hany
      exact ⟨p, hp, (singletonContextConflict_iff m p).mp hcond⟩
  · intro store m hs hsc hst
    unfold singletonGateConflict
    rw [if_neg (by simp [hst]), if_neg (by simp [hs]), if_neg (by simp [hsc])]
    cases hany : (pendingMigrations store).any (fun p => decide (p.table = m.table))
    · simp only [Bool.false_eq_true, if_false, Option.isSome_none, false_iff]
      rintro ⟨p, hp, hcond⟩
      have : (pendingMigrations store).any (fun p => decide (p.table = m.table)) = true :=
        List.any_eq_true.mpr ⟨p, hp, decide_eq_true hcond⟩
      rw [hany] at this
      exact Bool.false_ne_true this
    · simp only [if_true, Option.isSome_some, true_iff]
      obtain ⟨p, hp, hcond⟩ := List.any_eq_true.mp hany
      exact ⟨p, hp, of_decide_eq_true hcond⟩
  · intro store m err herr
    unfold SubmitMigration at herr ⊢
    rw [if_neg (by simp)] at herr ⊢
    generalize findMigration store m.uuid = fm at herr ⊢
    cases fm with
    | none =>
      dsimp only at herr ⊢
      generalize (safeMigrationCutOverThreshold m.strategyCutOverThreshold).2 = sf at herr ⊢
      cases sf with
      | none =>
        dsimp only at herr ⊢
        unfold submitCallbackIfNonConflicting at herr ⊢
        generalize singletonGateConflict store m = g at herr ⊢
        cases g with
        | none =>
          dsimp only at herr
          simp at herr
        | some e2 => rfl
      | some e => rfl
    | some stored =>
      dsimp only at herr ⊢
      by_cases hctx : stored.migrationContext ≠ m.migrationContext
      · rw [if_pos hctx]
      · rw [if_neg hctx] at herr ⊢
        unfold submitCallbackIfNonConflicting at herr ⊢
        generalize singletonGateConflict store m = g at herr ⊢
        cases g with
        | none =>
          dsimp only at herr
          simp [RetryMigration] at herr
        | some e2 => rfl
  · intro store m err hfind hsafe hgate
    unfold SubmitMigration
    rw [if_neg (by simp), hfind]
    dsimp only
    rw [hsafe]
    dsimp only
    unfold submitCallbackIfNonConflicting
    rw [hgate]

/-- C3 (witness): the theorem applied to a store holding one pending
(queued) migration and a singleton submission, and to the empty store. -/
theorem c3_singleton_gate_witness :
    (singletonGateConflict [sampleMigration]
        { sampleMigration with uuid := "bbbb", singleton := true }).isSome
    ∧ ¬ (singletonGateConflict []
        { sampleMigration with uuid := "bbbb", singleton := true }).isSome :=
  ⟨(c3_singleton_gate.1 [sampleMigration]
      { sampleMigration with uuid := "bbbb", singleton := true } rfl).mpr (by decide),
   fun h =>
    (by decide :
      ¬ (pendingMigrations ([] : Store) ≠ []))
      ((c3_singleton_gate.1 []
        { sampleMigration with uuid := "bbbb", singleton := true } rfl).mp h)⟩

/-! ### Helper lemmas about uuid-preserving row updates -/

theorem retrySQLRow_uuid (uuid : String) (m : OnlineDDL) :
    (retrySQLRow uuid m).uuid = m.uuid := by
  unfold retrySQLRow
  split_ifs <;> rfl

theorem setCancelledTimestampRow_uuid (uuid : String) (m : OnlineDDL) :
    (setCancelledTimestampRow uuid m).uuid = m.uuid := by
  unfold setCancelledTimestampRow
  split_ifs <;> rfl

theorem failOrCancelRow_uuid (uuid message : String) (m : OnlineDDL) :
    (failOrCancelRow uuid message m).uuid = m.uuid := by
  unfold failOrCancelRow
  split_ifs <;> rfl

theorem findMigration_map (f : OnlineDDL → OnlineDDL) (h : ∀ m, (f m).uuid = m.uuid)
    (store : Store) (uuid : String) :
    findMigration (store.map f) uuid = (findMigration store uuid).map f := by
  induction store with
  | nil => rfl
  | cons a l ih =>
    unfold findMigration at ih ⊢
    by_cases ha : a.uuid = uuid
    · rw [List.map_cons, List.find?_cons_of_pos _ (by simp [h, ha]),
        List.find?_cons_of_pos _ (by simp [ha])]
      rfl
    · rw [List.map_cons, List.find?_cons_of_neg _ (by simp [h, ha]),
        List.find?_cons_of_neg _ (by simp [ha]), ih]

theorem countUUID_map (f : OnlineDDL → OnlineDDL) (h : ∀ m, (f m).uuid = m.uuid)
    (store : Store) (uuid : String) :
    countUUID (store.map f) uuid = countUUID store uuid := by
  unfold countUUID
  induction store with
  | nil => rfl
  | cons a l ih => simp [List.countP_cons, h, ih]

theorem map_id_of_mem (f : OnlineDDL → OnlineDDL) (l : Store) (h : ∀ x ∈ l, f x = x) :
    l.map f = l := by
  induction l with
  | nil => rfl
  | cons a l ih => simp_all

/-! ### Claim C4: idempotent resubmission -/

/-- C4 (counterexample): resubmitting a pending `singleton` migration (same
UUID and same migration context) does not behave as `RetryMigration`: the
resubmission goes through the singleton gate, which sees the pending row
(the migration itself) and rejects with FAILED_PRECONDITION, while
`RetryMigration` would succeed with an empty update. -/
theorem c4_submit_counterexample :
    (SubmitMigration true [{ sampleMigration with singleton := true }]
        { sampleMigration with singleton := true }).2
      = Except.error VtErr.failedPrecondition
    ∧ RetryMigration true true [{ sampleMigration with singleton := true }] "aaaa"
        = ([{ sampleMigration with singleton := true }], Except.ok ⟨0⟩) := by
  refine ⟨?_, ?_⟩ <;> decide

/-- C4 (amended): for a statement carrying an already-present UUID, Submit
rejects with FAILED_PRECONDITION when the submitted migration context
differs from the stored one; otherwise it inserts no new row (the row count
for the UUID is unchanged) and — provided the strategy's singleton gate
raises no conflict — behaves exactly as `RetryMigration`, which re-queues
the row only from terminal failed/cancelled and otherwise leaves the store
unchanged; when the gate does raise a conflict, the resubmission is rejected
with that error and the store is unchanged. -/
theorem c4_submit_amended :
    (∀ (store : Store) (m stored : OnlineDDL),
      findMigration store m.uuid = some stored →
      stored.migrationContext ≠ m.migrationContext →
      SubmitMigration true store m = (store, Except.error VtErr.failedPrecondition))
    ∧ (∀ (store : Store) (m stored : OnlineDDL),
      findMigration store m.uuid = some stored →
      stored.migrationContext = m.migrationContext →
      singletonGateConflict store m = none →
      SubmitMigration true store m = RetryMigration true true store m.uuid)
    ∧ (∀ (store : Store) (m stored : OnlineDDL) (err : VtErr),
      findMigration store m.uuid = some stored →
      stored.migrationContext = m.migrationContext →
      singletonGateConflict store m = some err →
      SubmitMigration true store m = (store, Except.error err))
    ∧ (∀ (store : Store) (m stored : OnlineDDL),
      findMigration store m.uuid = some stored →
      countUUID (SubmitMigration true store m).1 m.uuid = countUUID store m.uuid)
    ∧ (∀ (store : Store) (uuid : String),
      countUUID (RetryMigration true true store uuid).1 uuid = countUUID store uuid)
    ∧ (∀ (store : Store) (uuid : String),
      (∀ p ∈ store, p.uuid = uuid →
        p.status ≠ MigrationStatus.failed ∧ p.status ≠ MigrationStatus.cancelled) →
      (RetryMigration true true store uuid).1 = store)
    ∧ (∀ (store : Store) (uuid : String) (m : OnlineDDL),
      findMigration store uuid = some m →
      (m.status = MigrationStatus.failed ∨ m.status = MigrationStatus.cancelled) →
      findMigration (RetryMigration true true store uuid).1 uuid
        = some { m with status := MigrationStatus.queued, retries := m.retries + 1 }) := by
  refine ⟨?_, ?_, ?_, ?_, ?_, ?_, ?_⟩
  · intro store m stored hfind hctx
    unfold SubmitMigration
    rw [if_neg (by simp), hfind]
    dsimp only
    rw [if_pos hctx]
  · intro store m stored hfind hctx hgate
    unfold SubmitMigration
    rw [if_neg (by simp), hfind]
    dsimp only
    rw [if_neg (by simp [hctx])]
    unfold submitCallbackIfNonConflicting
    rw [hgate]
  · intro store m stored err hfind hctx hgate
    unfold SubmitMigration
    rw [if_neg (by simp), hfind]
    dsimp only
    rw [if_neg (by simp [hctx])]
    unfold submitCallbackIfNonConflicting
    rw [hgate]
  · intro store m stored hfind
    unfold SubmitMigration
    rw [if_neg (by simp), hfind]
    dsimp only
    by_cases hctx : stored.migrationContext ≠ m.migrationContext
    · rw [if_pos hctx]
    · rw [if_neg hctx]
      unfold submitCallbackIfNonConflicting
      generalize singletonGateConflict store m = g
      cases g with
      | none =>
        dsimp only
        exact countUUID_map (retrySQLRow m.uuid) (retrySQLRow_uuid m.uuid) store m.uuid
      | some e => rfl
  · intro store uuid
    exact countUUID_map (retrySQLRow uuid) (retrySQLRow_uuid uuid) store uuid
  · intro store uuid h
    show store.map (retrySQLRow uuid) = store
    apply map_id_of_mem
    intro p hp
    unfold retrySQLRow
    rw [if_neg]
    rintro ⟨h1, h2⟩
    rcases h2 with h2 | h2
    · exact (h p hp h1).1 h2
    · exact (h p hp h1).2 h2
  · intro store uuid m hfind hterm
    have hr : findMigration (store.map (retrySQLRow uuid)) uuid
        = (findMigration store uuid).map (retrySQLRow uuid) :=
      findMigration_map (retrySQLRow uuid) (retrySQLRow_uuid uuid) store uuid
    have huuid : m.uuid = uuid := by
      have := List.find?_some hfind
      simpa using this
    show findMigration (store.map (retrySQLRow uuid)) uuid = _
    rw [hr, hfind]
    show some (retrySQLRow uuid m) = _
    unfold retrySQLRow
    rw [if_pos ⟨huuid, hterm⟩]

/-- C4 (witness): the theorem applied to a store holding one terminal
(failed) row with the sample migration resubmitted in the same context:
the resubmission equals the retry, which re-queues the row. -/
theorem c4_submit_amended_witness :
    SubmitMigration true [{ sampleMigration with status := MigrationStatus.failed }]
        sampleMigration
      = RetryMigration true true
          [{ sampleMigration with status := MigrationStatus.failed }] "aaaa"
    ∧ findMigration
        (RetryMigration true true
          [{ sampleMigration with status := MigrationStatus.failed }] "aaaa").1 "aaaa"
      = some { sampleMigration with status := MigrationStatus.queued, retries := 1 } := by
  constructor
  · exact c4_submit_amended.2.1
      [{ sampleMigration with status := MigrationStatus.failed }]
      sampleMigration
      { sampleMigration with status := MigrationStatus.failed }
      (by decide) rfl (by decide)
  · have := c4_submit_amended.2.2.2.2.2.2
      [{ sampleMigration with status := MigrationStatus.failed }] "aaaa"
      { sampleMigration with status := MigrationStatus.failed }
      (by decide) (Or.inl rfl)
    simpa using this

/-! ### Claim C5: cancel semantics -/

/-- Cancelling a migration already in a terminal status is a no-op returning
the empty result. -/
theorem cancel_terminal (store : Store) (uuid msg : String) (user found : Bool)
    (m : OnlineDDL) (hfind : findMigration store uuid = some m)
    (hterm : m.status.isTerminal = true) :
    CancelMigration true store uuid msg user found = (store, Except.ok emptyResult) := by
  unfold CancelMigration
  rw [if_neg (by simp), hfind]
  dsimp only
  rw [if_pos hterm]

/-- The row resulting from cancelling a non-terminal migration: the
cancelled-timestamp stamp (when user-issued) followed by the deferred
`failMigration`. -/
theorem cancel_find_nonterminal (store : Store) (uuid msg : String) (user found : Bool)
    (m : OnlineDDL) (hfind : findMigration store uuid = some m)
    (hterm : m.status.isTerminal = false) :
    findMigration (CancelMigration true store uuid msg user found).1 uuid
      = some (failOrCancelRow uuid msg
          (if user = true then setCancelledTimestampRow uuid m else m)) := by
  unfold CancelMigration
  rw [if_neg (by simp), hfind]
  dsimp only
  rw [if_neg (show ¬ (m.status.isTerminal = true) by simp [hterm])]
  unfold failMigration
  cases user with
  | true =>
    show findMigration ((store.map (setCancelledTimestampRow uuid)).map
        (failOrCancelRow uuid msg)) uuid
      = some (failOrCancelRow uuid msg (setCancelledTimestampRow uuid m))
    rw [findMigration_map _ (failOrCancelRow_uuid uuid msg),
      findMigration_map _ (setCancelledTimestampRow_uuid uuid), hfind]
    rfl
  | false =>
    show findMigration (store.map (failOrCancelRow uuid msg)) uuid
      = some (failOrCancelRow uuid msg m)
    rw [findMigration_map _ (failOrCancelRow_uuid uuid msg), hfind]
    rfl

/-- C5: cancelling a terminal migration is a no-op returning the empty
result; cancelling a non-terminal migration sets `cancelled_timestamp`
exactly when user-issued, and the resulting terminal status is `cancelled`
rather than `failed` exactly in that case; and a second cancel after any
cancel is a no-op returning the empty result. -/
theorem c5_cancel :
    (∀ (store : Store) (uuid msg : String) (user found : Bool) (m : OnlineDDL),
      findMigration store uuid = some m → m.status.isTerminal = true →
      CancelMigration true store uuid msg user found = (store, Except.ok emptyResult))
    ∧ (∀ (store : Store) (uuid msg : String) (user found : Bool) (m : OnlineDDL),
      findMigration store uuid = some m → m.status.isTerminal = false →
      m.cancelledTimestamp = false →
      findMigration (CancelMigration true store uuid msg user found).1 uuid
        = some { m with
            cancelledTimestamp := user
            status := if user = true then MigrationStatus.cancelled else MigrationStatus.failed
            message := msg })
    ∧ (∀ (store : Store) (uuid msg msg2 : String) (user found user2 found2 : Bool)
        (m : OnlineDDL),
      findMigration store uuid = some m →
      CancelMigration true (CancelMigration true store uuid msg user found).1
          uuid msg2 user2 found2
        = ((CancelMigration true store uuid msg user found).1, Except.ok emptyResult)) := by
  refine ⟨cancel_terminal, ?_, ?_⟩
  · intro store uuid msg user found m hfind hterm hts
    rw [cancel_find_nonterminal store uuid msg user found m hfind hterm]
    have huuid : m.uuid = uuid := by simpa using List.find?_some hfind
    cases user with
    | true =>
      rw [if_pos rfl]
      unfold failOrCancelRow setCancelledTimestampRow
      rw [if_pos huuid]
      simp [huuid]
    | false =>
      rw [if_neg (by simp)]
      unfold failOrCancelRow
      rw [if_pos huuid]
      simp [hts]
  · intro store uuid msg msg2 user found user2 found2 m hfind
    have huuid : m.uuid = uuid := by simpa using List.find?_some hfind
    cases hterm : m.status.isTerminal
    · have hfind2 := cancel_find_nonterminal store uuid msg user found m hfind hterm
      apply cancel_terminal _ _ _ _ _ _ hfind2
      unfold failOrCancelRow
      rw [if_pos (show (if user = true then setCancelledTimestampRow uuid m else m).uuid = uuid by
        cases user <;> simp [setCancelledTimestampRow_uuid, huuid])]
      cases hts : (if user = true then setCancelledTimestampRow uuid m else m).cancelledTimestamp <;>
        simp [hts, MigrationStatus.isTerminal]
    · have h1 := cancel_terminal store uuid msg user found m hfind hterm
      rw [h1]
      exact cancel_terminal store uuid msg2 user2 found2 m hfind hterm

/-- C5 (witness): cancelling a completed row is a no-op with empty result;
a user-issued cancel of the queued sample row yields a cancelled row with
the cancelled timestamp set. -/
theorem c5_cancel_witness :
    CancelMigration true [{ sampleMigration with status := MigrationStatus.complete }]
        "aaaa" "stop" true false
      = ([{ sampleMigration with status := MigrationStatus.complete }], Except.ok emptyResult)
    ∧ findMigration (CancelMigration true [sampleMigration] "aaaa" "stop" true false).1 "aaaa"
      = some { sampleMigration with
          cancelledTimestamp := true
          status := MigrationStatus.cancelled
          message := "stop" } :=
  ⟨c5_cancel.1 [{ sampleMigration with status := MigrationStatus.complete }]
      "aaaa" "stop" true false { sampleMigration with status := MigrationStatus.complete }
      (by decide) (by decide),
   by
     have := c5_cancel.2.1 [sampleMigration] "aaaa" "stop" true false sampleMigration
       (by decide) (by decide) (by decide)
     simpa using this⟩

/-! ### Claim C8: scheduler pass -/

theorem scheduleFlagRow_status (row : OnlineDDL) :
    (scheduleFlagRow row).status = row.status := by
  unfold scheduleFlagRow
  split_ifs <;> rfl

theorem scheduleFlagRow_uuid (row : OnlineDDL) :
    (scheduleFlagRow row).uuid = row.uuid := by
  unfold scheduleFlagRow
  split_ifs <;> rfl

theorem scheduleFlagRow_ready (row : OnlineDDL) (h : row.isImmediateOperation = true) :
    (scheduleFlagRow row).readyToComplete = true := by
  unfold scheduleFlagRow
  by_cases hrc : row.readyToComplete = false
  · rw [if_pos ⟨hrc, h⟩]
  · rw [if_neg (by simp [hrc])]
    simpa using hrc

/-- One scheduler pass relates every input row to its output row as claim C8
describes, for any value of the already-scheduled accumulator. -/
theorem scheduleRows_forall2 (rows : Store) (b : Bool) :
    List.Forall₂ schedulerRowOK rows (scheduleRows rows b) := by
  induction rows generalizing b with
  | nil => exact List.Forall₂.nil
  | cons row rest ih =>
    unfold scheduleRows
    by_cases h1 : row.status ≠ MigrationStatus.queued
    · rw [if_pos h1]
      refine List.Forall₂.cons ?_ (ih b)
      exact ⟨rfl, fun _ => rfl, fun _ => rfl,
        fun hq _ _ => absurd hq h1, fun hne => absurd rfl hne⟩
    · rw [if_neg h1]
      have hq : row.status = MigrationStatus.queued := by simpa using h1
      by_cases h2 : row.postponeLaunch = true
      · rw [if_pos h2]
        refine List.Forall₂.cons ?_ (ih b)
        exact ⟨rfl, fun _ => rfl, fun _ => rfl,
          fun _ hpl _ => absurd h2 (by simp [hpl]), fun hne => absurd rfl hne⟩
      · rw [if_neg h2]
        by_cases h3 : (row.isImmediateOperation = true ∧ row.postponeCompletion = true)
            ∨ b = true
        · rw [if_pos h3]
          refine List.Forall₂.cons ?_ (ih b)
          refine ⟨scheduleFlagRow_uuid row, fun hc => absurd hq hc, fun hc => absurd hc h2,
            fun _ _ himm => scheduleFlagRow_ready row himm, fun hne => ?_⟩
          exact absurd (scheduleFlagRow_status row) hne
        · rw [if_neg h3]
          refine List.Forall₂.cons ?_ (ih true)
          refine ⟨scheduleFlagRow_uuid row, fun hc => absurd hq hc, fun hc => absurd hc h2,
            fun _ _ himm => scheduleFlagRow_ready row himm, fun _ => ?_⟩
          refine ⟨hq, rfl, fun hip => h3 (Or.inl hip), by simpa using h2⟩

/-- With the accumulator already set, a scheduler pass changes no status. -/
theorem scheduleRows_count_true (rows : Store) :
    ((rows.zip (scheduleRows rows true)).countP
      (fun p => decide (p.1.status ≠ p.2.status))) = 0 := by
  induction rows with
  | nil => rfl
  | cons row rest ih =>
    unfold scheduleRows
    split_ifs with h1 h2 h3
    · rw [List.zip_cons_cons, List.countP_cons, ih]
      simp
    · rw [List.zip_cons_cons, List.countP_cons, ih]
      simp
    · rw [List.zip_cons_cons, List.countP_cons, ih]
      simp [scheduleFlagRow_status]
    · exact absurd (Or.inr rfl) h3

/-- A scheduler pass promotes at most one row. -/
theorem scheduleRows_count_false (rows : Store) :
    ((rows.zip (scheduleRows rows false)).countP
      (fun p => decide (p.1.status ≠ p.2.status))) ≤ 1 := by
  induction rows with
  | nil => simp
  | cons row rest ih =>
    unfold scheduleRows
    split_ifs with h1 h2 h3
    · rw [List.zip_cons_cons, List.countP_cons]
      simpa using ih
    · rw [List.zip_cons_cons, List.countP_cons]
      simpa using ih
    · rw [List.zip_cons_cons, List.countP_cons]
      simpa [scheduleFlagRow_status] using ih
    · have hq : row.status = MigrationStatus.queued := by simpa using h1
      rw [List.zip_cons_cons, List.countP_cons, scheduleRows_count_true rest]
      simp [hq, scheduleFlagRow_status]

/-- C8: over any store, one scheduler pass promotes at most one row from
queued to ready; rows with `postpone_launch` (and non-queued rows) are left
untouched; every considered immediate-operation row ends with
`ready_to_complete=true`; and a row's status changes only by a promotion
queued→ready of a non-postponed row that is not an immediate operation with
postponed completion. -/
theorem c8_scheduler :
    (∀ store : Store,
      ((store.zip (scheduleNextMigration store)).countP
        (fun p => decide (p.1.status ≠ p.2.status))) ≤ 1)
    ∧ (∀ store : Store, List.Forall₂ schedulerRowOK store (scheduleNextMigration store)) := by
  constructor
  · intro store
    exact scheduleRows_count_false store
  · intro store
    exact scheduleRows_forall2 store false

/-! ### Claim C9: legal status transitions -/

theorem forall2_map_of (R : OnlineDDL → OnlineDDL → Prop) (g : OnlineDDL → OnlineDDL)
    (l : Store) (h : ∀ a ∈ l, R a (g a)) : List.Forall₂ R l (l.map g) := by
  induction l with
  | nil => exact List.Forall₂.nil
  | cons a t ih =>
    exact List.Forall₂.cons (h a (by simp)) (ih (fun x hx => h x (by simp [hx])))

theorem forall2_self_of (R : OnlineDDL → OnlineDDL → Prop) (l : Store)
    (h : ∀ a, R a a) : List.Forall₂ R l l := by
  induction l with
  | nil => exact List.Forall₂.nil
  | cons a t ih => exact List.Forall₂.cons (h a) ih

/-- With unique UUIDs, any member carrying the looked-up UUID is the found
row. -/
theorem findMigration_unique (store : Store) (uuid : String) (m : OnlineDDL)
    (hnd : (store.map (fun r => r.uuid)).Nodup)
    (hfind : findMigration store uuid = some m)
    (a : OnlineDDL) (ha : a ∈ store) (hu : a.uuid = uuid) : a = m := by
  induction store with
  | nil => cases ha
  | cons b l ih =>
    rw [List.map_cons, List.nodup_cons] at hnd
    unfold findMigration at hfind
    by_cases hb : b.uuid = uuid
    · rw [List.find?_cons_of_pos _ (by simp [hb])] at hfind
      obtain rfl := Option.some.inj hfind
      rcases List.mem_cons.mp ha with rfl | hal
      · rfl
      · exact absurd (hb ▸ hu ▸ List.mem_map_of_mem (fun r => r.uuid) hal) hnd.1
    · rw [List.find?_cons_of_neg _ (by simp [hb])] at hfind
      rcases List.mem_cons.mp ha with rfl | hal
      · exact absurd hu hb
      · exact ih hnd.2 hfind hal

theorem amendedLegalTransition_cancel (s t : MigrationStatus)
    (h : s.isTerminal = false)
    (ht : t = MigrationStatus.failed ∨ t = MigrationStatus.cancelled) :
    amendedLegalTransition s t = true := by
  rcases ht with rfl | rfl <;> cases s <;>
    first | rfl | simp [MigrationStatus.isTerminal] at h

/-- C9 (counterexample): a user-issued cancel of a queued migration moves it
from queued directly to cancelled — a status change performed by an executor
operation that is not among the claim's legal transitions. -/
theorem c9_transition_counterexample :
    ((CancelMigration true [sampleMigration] "aaaa" "cancel" true false).1.map
      (fun m => m.status)) = [MigrationStatus.cancelled]
    ∧ claimedLegalTransition MigrationStatus.queued MigrationStatus.cancelled = false := by
  refine ⟨?_, ?_⟩ <;> decide

/-- C9 (amended): every status change performed by the cancel, retry and
scheduler operations is one of: queued→ready, ready→running,
running→{complete,failed,cancelled}, retry terminal(failed/cancelled)→queued,
or a cancellation/failure taking a not-yet-running (queued/ready) migration
to failed/cancelled; cancel and the scheduler never move a row out of a
terminal status, and retry moves a row out of a terminal status only to
queued. -/
theorem c9_transition_amended :
    (∀ (store : Store) (uuid msg : String) (user found : Bool),
      (store.map (fun r => r.uuid)).Nodup →
      List.Forall₂ (fun a b =>
          b.uuid = a.uuid ∧ (b.status = a.status
            ∨ (amendedLegalTransition a.status b.status = true
                ∧ a.status.isTerminal = false)))
        store (CancelMigration true store uuid msg user found).1)
    ∧ (∀ (store : Store) (uuid : String),
      List.Forall₂ (fun a b =>
          b.uuid = a.uuid ∧ (b.status = a.status
            ∨ (amendedLegalTransition a.status b.status = true
                ∧ (a.status = MigrationStatus.failed ∨ a.status = MigrationStatus.cancelled)
                ∧ b.status = MigrationStatus.queued)))
        store (RetryMigration true true store uuid).1)
    ∧ (∀ store : Store,
      List.Forall₂ (fun a b =>
          b.uuid = a.uuid ∧ (b.status = a.status
            ∨ (amendedLegalTransition a.status b.status = true
                ∧ a.status.isTerminal = false)))
        store (scheduleNextMigration store)) := by
  refine ⟨?_, ?_, ?_⟩
  · intro store uuid msg user found hnd
    unfold CancelMigration
    rw [if_neg (by simp)]
    cases hfind : findMigration store uuid with
    | none =>
      dsimp only
      exact forall2_self_of _ store (fun a => ⟨rfl, Or.inl rfl⟩)
    | some m =>
      dsimp only
      by_cases hterm : m.status.isTerminal = true
      · rw [if_pos hterm]
        exact forall2_self_of _ store (fun a => ⟨rfl, Or.inl rfl⟩)
      · rw [if_neg hterm]
        have hmterm : m.status.isTerminal = false := by simpa using hterm
        unfold failMigration
        cases user with
        | true =>
          show List.Forall₂ _ store
            ((store.map (setCancelledTimestampRow uuid)).map (failOrCancelRow uuid msg))
          rw [List.map_map]
          apply forall2_map_of
          intro a ha
          by_cases hau : a.uuid = uuid
          · have ham : a = m := findMigration_unique store uuid m hnd hfind a ha hau
            refine ⟨?_, Or.inr ⟨?_, ham ▸ hmterm⟩⟩
            · show (failOrCancelRow uuid msg (setCancelledTimestampRow uuid a)).uuid = a.uuid
              rw [failOrCancelRow_uuid, setCancelledTimestampRow_uuid]
            · apply amendedLegalTransition_cancel _ _ (ham ▸ hmterm)
              show (failOrCancelRow uuid msg (setCancelledTimestampRow uuid a)).status
                  = MigrationStatus.failed
                ∨ (failOrCancelRow uuid msg (setCancelledTimestampRow uuid a)).status
                  = MigrationStatus.cancelled
              unfold setCancelledTimestampRow failOrCancelRow
              rw [if_pos hau, if_pos
                (show ({ a with cancelledTimestamp := true } : OnlineDDL).uuid = uuid from hau)]
              simp
          · have h1 : setCancelledTimestampRow uuid a = a := by
              unfold setCancelledTimestampRow
              rw [if_neg hau]
            have h2 : failOrCancelRow uuid msg a = a := by
              unfold failOrCancelRow
              rw [if_neg hau]
            show (failOrCancelRow uuid msg (setCancelledTimestampRow uuid a)).uuid = a.uuid
              ∧ ((failOrCancelRow uuid msg (setCancelledTimestampRow uuid a)).status = a.status
                ∨ _)
            rw [h1, h2]
            exact ⟨rfl, Or.inl rfl⟩
        | false =>
          show List.Forall₂ _ store (store.map (failOrCancelRow uuid msg))
          apply forall2_map_of
          intro a ha
          by_cases hau : a.uuid = uuid
          · have ham : a = m := findMigration_unique store uuid m hnd hfind a ha hau
            refine ⟨failOrCancelRow_uuid uuid msg a, Or.inr ⟨?_, ham ▸ hmterm⟩⟩
            apply amendedLegalTransition_cancel _ _ (ham ▸ hmterm)
            unfold failOrCancelRow
            rw [if_pos hau]
            by_cases hts : a.cancelledTimestamp = true
            · rw [if_pos hts]
              exact Or.inr rfl
            · rw [if_neg hts]
              exact Or.inl rfl
          · have h2 : failOrCancelRow uuid msg a = a := by
              unfold failOrCancelRow
              rw [if_neg hau]
            rw [h2]
            exact ⟨rfl, Or.inl rfl⟩
  · intro store uuid
    show List.Forall₂ _ store (store.map (retrySQLRow uuid))
    apply forall2_map_of
    intro a ha
    unfold retrySQLRow
    by_cases hc : a.uuid = uuid
        ∧ (a.status = MigrationStatus.failed ∨ a.status = MigrationStatus.cancelled)
    · rw [if_pos hc]
      refine ⟨rfl, Or.inr ⟨?_, hc.2, rfl⟩⟩
      rcases hc.2 with hs | hs <;> rw [hs] <;> rfl
    · rw [if_neg hc]
      exact ⟨rfl, Or.inl rfl⟩
  · intro store
    apply List.Forall₂.imp ?_ (scheduleRows_forall2 store false)
    intro a b hab
    refine ⟨hab.1, ?_⟩
    by_cases hs : b.status = a.status
    · exact Or.inl hs
    · obtain ⟨hq, hr, _, _⟩ := hab.2.2.2.2 hs
      refine Or.inr ⟨?_, ?_⟩
      · rw [hq, hr]
        rfl
      · rw [hq]
        rfl

/-- C9 (witness): the amended theorem applied to the singleton store with a
queued sample row: the user-issued cancel takes it to cancelled, which the
amended relation accepts. -/
theorem c9_transition_amended_witness :
    List.Forall₂ (fun a b =>
        b.uuid = a.uuid ∧ (b.status = a.status
          ∨ (amendedLegalTransition a.status b.status = true
              ∧ a.status.isTerminal = false)))
      [sampleMigration]
      (CancelMigration true [sampleMigration] "aaaa" "cancel" true false).1 :=
  c9_transition_amended.1 [sampleMigration] "aaaa" "cancel" true false (by decide)

/-! ### Claim C10: runner startup guard -/

/-- While the reviewed-running-migrations flag is down, any sequence of
failing reviews and runner invocations leaves the state unchanged: the
runner returns immediately, dispatches nothing, and the flag stays down. -/
theorem tickRun_no_review (owned : List OnlineDDL) (maxConcurrent : Nat)
    (pend : List String) (pf : OnlineDDL → Bool)
    (exec : Store → OnlineDDL → Store) (events : List TickEvent) :
    ∀ s : TickState, s.flags.reviewedRunningMigrationsFlag = false →
    (∀ e ∈ events, e ≠ TickEvent.review true) →
    tickRun owned maxConcurrent pend pf exec s events = s := by
  induction events with
  | nil =>
    intro s _ _
    rfl
  | cons e rest ih =>
    intro s hflag hev
    have hstep : tickStep owned maxConcurrent pend pf exec s e = s := by
      cases e with
      | review ok =>
        cases ok with
        | true => exact absurd rfl (hev _ (List.mem_cons_self _ _))
        | false =>
          show { s with flags := reviewRunningMigrationsFlags false s.flags } = s
          have hrev : reviewRunningMigrationsFlags false s.flags = s.flags := by
            unfold reviewRunningMigrationsFlags
            split_ifs with h1 h2 <;> first | rfl | exact h2.elim
          rw [hrev]
      | runNext =>
        have hrun : runNextMigration s.flags s.store owned maxConcurrent pend pf exec
            = (s.store, none) := by
          unfold runNextMigration
          rw [if_pos hflag]
        show { s with
            store := (runNextMigration s.flags s.store owned maxConcurrent pend pf exec).1
            dispatched := s.dispatched
              ++ (runNextMigration s.flags s.store owned maxConcurrent pend pf exec).2.toList }
          = s
        rw [hrun]
        simp
    have hfold : tickRun owned maxConcurrent pend pf exec s (e :: rest)
        = tickRun owned maxConcurrent pend pf exec
            (tickStep owned maxConcurrent pend pf exec s e) rest := rfl
    rw [hfold, hstep]
    exact ih s hflag (fun x hx => hev x (List.mem_cons_of_mem _ hx))

/-- C10: starting from the state right after `Open()` (executor open, the
reviewed-running-migrations flag cleared), as long as no successful run of
`reviewRunningMigrations` has occurred, `runNextMigration` never dispatches
any migration and changes no state — for every possible store, ownership
set, and dispatch behavior. -/
theorem c10_startup_guard (owned : List OnlineDDL) (maxConcurrent : Nat)
    (pend : List String) (pf : OnlineDDL → Bool)
    (exec : Store → OnlineDDL → Store) (store : Store) (priorFlag : Bool)
    (events : List TickEvent)
    (hev : ∀ e ∈ events, e ≠ TickEvent.review true) :
    tickRun owned maxConcurrent pend pf exec
        { flags := openExecutor true
            { isOpen := false, reviewedRunningMigrationsFlag := priorFlag }
          store := store
          dispatched := [] } events
      = { flags := { isOpen := true, reviewedRunningMigrationsFlag := false }
          store := store
          dispatched := [] } := by
  have h0 : openExecutor true { isOpen := false, reviewedRunningMigrationsFlag := priorFlag }
      = { isOpen := true, reviewedRunningMigrationsFlag := false } := by
    unfold openExecutor
    rw [if_neg (by simp)]
  rw [h0]
  exact tickRun_no_review owned maxConcurrent pend pf exec events
    { flags := { isOpen := true, reviewedRunningMigrationsFlag := false }
      store := store
      dispatched := [] } rfl hev

/-- C10 (witness): the guard applied to a concrete run — a failing review
followed by two runner ticks over a one-row store dispatches nothing. -/
theorem c10_startup_guard_witness :
    tickRun [] 256 [] (fun _ => false) (fun s _ => s)
        { flags := openExecutor true
            { isOpen := false, reviewedRunningMigrationsFlag := true }
          store := [sampleMigration]
          dispatched := [] }
        [TickEvent.review false, TickEvent.runNext, TickEvent.runNext]
      = { flags := { isOpen := true, reviewedRunningMigrationsFlag := false }
          store := [sampleMigration]
          dispatched := [] } :=
  c10_startup_guard [] 256 [] (fun _ => false) (fun s _ => s) [sampleMigration] true
    [TickEvent.review false, TickEvent.runNext, TickEvent.runNext] (by decide)

end VitessOnlineDDL
